import Mathlib

/-!
Shallow embedding of `examples/multi-tello-pygame.py`: the
`VideoStreamHandler` retry/frame logic and the `MultiTelloFrontEnd`
event handling, control tick and cleanup logic.

Device calls (takeoff, land, send_rc_control, streamoff, ...) are modelled
as fallible external operations: an environment record says which calls
raise, and each handler returns the resulting state together with the
trace of device calls it issued and the exception it raised, if any.
A Python exception aborts the remaining statements of the handler and
propagates to the caller unless caught by a `try`.
-/

namespace MultiTello

/-- Speed magnitude used by the key mapping (source line 10, `S = 60`). -/
def S : Int := 60

/-- Keyboard keys the front end reacts to (pygame key constants
K_UP, K_DOWN, K_LEFT, K_RIGHT, K_w, K_s, K_a, K_d, K_t, K_l,
K_ESCAPE, K_1..K_4; `other` stands for any other key). -/
inductive Key
  | up | down | left | right
  | w | s | a | d
  | t | l
  | escape
  | k1 | k2 | k3 | k4
  | other
deriving DecidableEq

/-- Pygame events drained by the main loop: the USEREVENT+1 control tick,
window quit, key down and key up. -/
inductive Ev
  | tick
  | quit
  | keyDown (k : Key)
  | keyUp (k : Key)
deriving DecidableEq

/-- One drone's velocity dict entry (`self.velocities[ip]`, source 105-110). -/
structure Velocity where
  for_back_velocity : Int
  left_right_velocity : Int
  up_down_velocity : Int
  yaw_velocity : Int
deriving DecidableEq

/-- Mutable fleet state of `MultiTelloFrontEnd`: the insertion-ordered dict
keys (`list(self.tellos.keys())`, ips assumed distinct), the velocity dict,
the per-drone armed-flag dict `self.send_rc_control`, and `self.selected_drone`.
The dicts all have exactly the keys in `tellos`; they are modelled as total
functions read/written only at fleet members. -/
structure FleetState where
  tellos : List String
  velocities : String → Velocity
  send_rc_control : String → Bool
  selected_drone : String

/-- Trace item: one call issued to a device over its control channel. -/
inductive DevCall
  | takeoff (ip : String)
  | land (ip : String)
  | send_rc_control (ip : String) (lr fb ud yaw : Int)
deriving DecidableEq

/-- The device a control-channel call is addressed to. -/
def DevCall.ip : DevCall → String
  | .takeoff ip => ip
  | .land ip => ip
  | .send_rc_control ip _ _ _ _ => ip

/-- Fault model for the device control channel: which calls raise. -/
structure Env where
  takeoff_fails : String → Bool
  land_fails : String → Bool
  rc_fails : String → Bool

/-- Environment in which every device command succeeds. -/
def noFailEnv : Env :=
  { takeoff_fails := fun _ => false
    land_fails := fun _ => false
    rc_fails := fun _ => false }

/-- Environment in which every takeoff call raises. -/
def takeoffFailEnv : Env :=
  { noFailEnv with takeoff_fails := fun _ => true }

/-- Point update of one drone's velocity dict entry
(`self.velocities[ip][axis] = v`). -/
def updVel (st : FleetState) (ip : String) (f : Velocity → Velocity) : FleetState :=
  { st with velocities := fun x => if x = ip then f (st.velocities x) else st.velocities x }

/-- `MultiTelloFrontEnd.keydown` (source 178-195): set one axis of the
currently selected drone to plus or minus S. -/
def keydown (key : Key) (st : FleetState) : FleetState :=
  match key with
  | .up => updVel st st.selected_drone (fun v => { v with for_back_velocity := S })
  | .down => updVel st st.selected_drone (fun v => { v with for_back_velocity := -S })
  | .left => updVel st st.selected_drone (fun v => { v with left_right_velocity := -S })
  | .right => updVel st st.selected_drone (fun v => { v with left_right_velocity := S })
  | .w => updVel st st.selected_drone (fun v => { v with up_down_velocity := S })
  | .s => updVel st st.selected_drone (fun v => { v with up_down_velocity := -S })
  | .a => updVel st st.selected_drone (fun v => { v with yaw_velocity := -S })
  | .d => updVel st st.selected_drone (fun v => { v with yaw_velocity := S })
  | _ => st

/-- `MultiTelloFrontEnd.keyup` (source 197-214): zero the axis of the
currently selected drone on a directional key release; on K_t call
`takeoff()` then set the armed flag; on K_l call `land()` then clear it.
The takeoff/land calls are not wrapped in a try: when they raise, the
following assignment is skipped and the exception propagates (third
component `some msg`). -/
def keyup (env : Env) (key : Key) (st : FleetState) :
    FleetState × List DevCall × Option String :=
  match key with
  | .up | .down =>
      (updVel st st.selected_drone (fun v => { v with for_back_velocity := 0 }), [], none)
  | .left | .right =>
      (updVel st st.selected_drone (fun v => { v with left_right_velocity := 0 }), [], none)
  | .w | .s =>
      (updVel st st.selected_drone (fun v => { v with up_down_velocity := 0 }), [], none)
  | .a | .d =>
      (updVel st st.selected_drone (fun v => { v with yaw_velocity := 0 }), [], none)
  | .t =>
      if env.takeoff_fails st.selected_drone then
        (st, [DevCall.takeoff st.selected_drone], some "takeoff failed")
      else
        ({ st with send_rc_control :=
             fun ip => if ip = st.selected_drone then true else st.send_rc_control ip },
         [DevCall.takeoff st.selected_drone], none)
  | .l =>
      if env.land_fails st.selected_drone then
        (st, [DevCall.land st.selected_drone], some "land failed")
      else
        ({ st with send_rc_control :=
             fun ip => if ip = st.selected_drone then false else st.send_rc_control ip },
         [DevCall.land st.selected_drone], none)
  | _ => (st, [], none)

/-- `MultiTelloFrontEnd.update` (source 216-225): if the selected drone is a
key of `send_rc_control` and its armed flag is set, send its four-axis
velocity over the control channel (which may raise); otherwise do nothing. -/
def update (env : Env) (st : FleetState) : List DevCall × Option String :=
  if st.selected_drone ∈ st.tellos ∧ st.send_rc_control st.selected_drone = true then
    ([DevCall.send_rc_control st.selected_drone
        (st.velocities st.selected_drone).left_right_velocity
        (st.velocities st.selected_drone).for_back_velocity
        (st.velocities st.selected_drone).up_down_velocity
        (st.velocities st.selected_drone).yaw_velocity],
     if env.rc_fails st.selected_drone then some "send_rc_control failed" else none)
  else ([], none)

/-- Selection branch of the main loop (source 258-262): `drone_index` below
the fleet size reassigns `selected_drone` to that dict key; otherwise the
event is ignored. -/
def selectDrone (drone_index : Nat) (st : FleetState) : FleetState :=
  if h : drone_index < st.tellos.length then
    { st with selected_drone := st.tellos.get ⟨drone_index, h⟩ }
  else st

/-- State of the main `run` loop: the fleet state plus the loop's local
`should_stop` flag. -/
structure LoopState where
  fs : FleetState
  should_stop : Bool

/-- One iteration of the event-dispatch `for` loop inside
`MultiTelloFrontEnd.run` (source 250-266). Returns the new loop state, the
device calls issued, and the exception propagating out of the handler, if
any (none of these handlers catches device-call failures). -/
def stepEvent (env : Env) (ls : LoopState) (ev : Ev) :
    LoopState × List DevCall × Option String :=
  match ev with
  | .tick =>
      (ls, update env ls.fs)
  | .quit => ({ ls with should_stop := true }, [], none)
  | .keyDown k =>
      match k with
      | .escape => ({ ls with should_stop := true }, [], none)
      | .k1 => ({ ls with fs := selectDrone 0 ls.fs }, [], none)
      | .k2 => ({ ls with fs := selectDrone 1 ls.fs }, [], none)
      | .k3 => ({ ls with fs := selectDrone 2 ls.fs }, [], none)
      | .k4 => ({ ls with fs := selectDrone 3 ls.fs }, [], none)
      | _ => ({ ls with fs := keydown k ls.fs }, [], none)
  | .keyUp k =>
      match keyup env k ls.fs with
      | (fs', cs, err) => ({ ls with fs := fs' }, cs, err)

/-- Drain one batch of pygame events in arrival order (the `for event in
pygame.event.get()` loop). An uncaught exception from a handler aborts the
whole loop (`Except.error`); otherwise the final loop state and the
concatenated device-call trace are returned. -/
def processEvents (env : Env) : LoopState → List Ev → Except String (LoopState × List DevCall)
  | ls, [] => Except.ok (ls, [])
  | ls, ev :: rest =>
      match stepEvent env ls ev with
      | (ls', cs, none) =>
          match processEvents env ls' rest with
          | Except.ok (lsf, csf) => Except.ok (lsf, cs ++ csf)
          | Except.error m => Except.error m
      | (_, _, some msg) => Except.error msg

/-- True exactly when a batch of events was processed without an uncaught
exception. -/
def ranOk (r : Except String (LoopState × List DevCall)) : Bool :=
  match r with
  | Except.ok _ => true
  | Except.error _ => false

/-- `MultiTelloFrontEnd.__init__` (source 66-125), restricted to the state
the claims are about: dict keys in registration order, all velocities zero,
all armed flags false, selection initialized to the first registered drone
(`tello_configs[0][0]`; the configuration list is nonempty whenever the
constructor succeeds). -/
def initFleet (tello_configs : List (String × Nat)) : FleetState :=
  { tellos := tello_configs.map (fun c => c.1)
    velocities := fun _ =>
      { for_back_velocity := 0, left_right_velocity := 0
        up_down_velocity := 0, yaw_velocity := 0 }
    send_rc_control := fun _ => false
    selected_drone := (tello_configs.headD ("", 0)).1 }

/-- The two-drone configuration from `main()` (source 296-299). -/
def demoConfigs : List (String × Nat) :=
  [("192.168.10.1", 11111), ("192.168.3.21", 11118)]

/-- Loop state at entry of the main loop for the `main()` configuration. -/
def demoLoop : LoopState :=
  { fs := initFleet demoConfigs, should_stop := false }

/-- Observation of the run starting from `main()`'s configuration that
presses the UP arrow and then the select-drone-2 key: the first drone's
forward axis together with the finally selected drone. -/
def c2probe : Option (Int × String) :=
  match processEvents noFailEnv demoLoop [Ev.keyDown Key.up, Ev.keyDown Key.k2] with
  | Except.ok (ls, _) =>
      some ((ls.fs.velocities "192.168.10.1").for_back_velocity, ls.fs.selected_drone)
  | Except.error _ => none

/-- Fleet state of `main()`'s configuration after a successful takeoff of the
initially selected drone. -/
def armedDemo : FleetState := (keyup noFailEnv Key.t (initFleet demoConfigs)).1

/-- Decoded video frame: a pixel array. -/
abbrev Frame := List Nat

/-- Mutable frame objects live in a heap: an address indexes the store, and
copying a frame (`.copy()` in the source) allocates a fresh address holding
equal contents. This models Python object identity for frame arrays:
mutating the object at one address never changes the contents stored at a
different address. -/
structure FrameHeap where
  store : List Frame

/-- Contents of the frame object at address `a`. -/
def FrameHeap.read (h : FrameHeap) (a : Nat) : Frame := h.store.getD a []

/-- Allocate a fresh frame object with contents `d`; returns the new heap
and the fresh address. -/
def FrameHeap.alloc (h : FrameHeap) (d : Frame) : FrameHeap × Nat :=
  ({ store := h.store ++ [d] }, h.store.length)

/-- Mutate the frame object at address `a` in place. -/
def FrameHeap.writeAt (h : FrameHeap) (a : Nat) (d : Frame) : FrameHeap :=
  { store := h.store.set a d }

/-- State of a `VideoStreamHandler` (source 14-23): the latest-frame slot (an
owned heap address, or none before any frame arrived), the stopped flag, the
retry counter, the bounded retry limit and the backoff delay in seconds. -/
structure VideoStreamHandler where
  frame : Option Nat
  stopped : Bool
  retry_count : Nat
  max_retries : Nat
  retry_delay : Nat

/-- Handler state as built by `VideoStreamHandler.__init__` (source 15-23):
no frame yet, not stopped, zero retries, `max_retries = 3`, `retry_delay = 2`. -/
def initHandler : VideoStreamHandler :=
  { frame := none, stopped := false, retry_count := 0, max_retries := 3, retry_delay := 2 }

/-- Method `get_frame` (source 58-60): return a defensive copy of the latest
frame, i.e. a freshly allocated address with equal contents, or none if no
frame has ever been stored. -/
def VideoStreamHandler.get_frame (h : FrameHeap) (vs : VideoStreamHandler) :
    FrameHeap × Option Nat :=
  match vs.frame with
  | none => (h, none)
  | some a =>
      match h.alloc (h.read a) with
      | (h', b) => (h', some b)

/-- What the background thread observes in one iteration of `_update_frame`:
a successful read of the channel's current frame (a heap address owned by
the channel), a read yielding no frame yet, or a raised channel error (from
`get_frame_read` or the inner read loop). -/
inductive StreamEvent
  | frameOk (src : Nat)
  | frameNone
  | fault
deriving DecidableEq

/-- Side effects of the background thread other than frame stores: the
backoff sleep and the reconnect calls. -/
inductive Action
  | backoff
  | streamoff
  | streamon
deriving DecidableEq

/-- Fault model of the reconnect attempt: whether `tello.streamoff()` raises
there. (`tello.streamon()` raising does not change the call trace: it is
the last call of the swallowed inner try.) -/
structure AgentEnv where
  streamoff_fails : Bool

/-- Except-branch of `_update_frame` (source 40-56): increment the retry
counter; if it now exceeds `max_retries`, report exhaustion, mark the
handler stopped and exit with no further backoff or reconnect; otherwise
sleep `retry_delay` and make one best-effort reconnect attempt (streamoff,
then streamon unless streamoff raised; a failure here is swallowed). -/
def faultStep (env : AgentEnv) (vs : VideoStreamHandler) :
    VideoStreamHandler × List Action :=
  let r := vs.retry_count + 1
  if r > vs.max_retries then
    ({ vs with retry_count := r, stopped := true }, [])
  else
    ({ vs with retry_count := r },
     Action.backoff :: Action.streamoff ::
       (if env.streamoff_fails then [] else [Action.streamon]))

/-- One observed iteration of the `_update_frame` loops (source 30-56):
nothing once stopped (the thread has exited); store a copy of a successfully
read frame in the slot; skip a missing frame; run the except branch on a
channel error. -/
def agentStep (env : AgentEnv) (h : FrameHeap) (vs : VideoStreamHandler)
    (e : StreamEvent) : FrameHeap × VideoStreamHandler × List Action :=
  if vs.stopped then (h, vs, [])
  else
    match e with
    | .frameOk src =>
        ((h.alloc (h.read src)).1,
         { vs with frame := some (h.alloc (h.read src)).2 }, [])
    | .frameNone => (h, vs, [])
    | .fault => (h, (faultStep env vs).1, (faultStep env vs).2)

/-- The background thread of a handler over a finite observation sequence. -/
def runAgent (env : AgentEnv) : FrameHeap → VideoStreamHandler → List StreamEvent →
    FrameHeap × VideoStreamHandler × List Action
  | h, vs, [] => (h, vs, [])
  | h, vs, e :: es =>
      let s := agentStep env h vs e
      let r := runAgent env s.1 s.2.1 es
      (r.1, r.2.1, s.2.2 ++ r.2.2)

/-- Number of channel faults in an observation sequence. -/
def countFaults : List StreamEvent → Nat
  | [] => 0
  | .fault :: es => countFaults es + 1
  | _ :: es => countFaults es

/-- Fault model for the per-device cleanup calls; `has_stream` says whether
the device got a `VideoStreamHandler` during connect (`ip in
self.video_streams`). A failing `end()` is caught like the others and no
call follows it, so no flag for it is needed to determine the call trace. -/
structure CleanupEnv where
  has_stream : String → Bool
  stop_fails : String → Bool
  land_fails : String → Bool
  streamoff_fails : String → Bool

/-- Calls issued while cleaning up one device. -/
inductive CAct
  | stopStream (ip : String)
  | land (ip : String)
  | streamoff (ip : String)
  | endConn (ip : String)
deriving DecidableEq

/-- Body of the per-device `try` in `cleanup` (source 229-240): stop the
stream handler if present, land if armed, streamoff, end. The first raising
call is caught by the per-device except, which skips that device's
remaining steps. Returns the trace of calls attempted for this device. -/
def cleanupDevice (env : CleanupEnv) (armed : Bool) (ip : String) : List CAct :=
  let s1 : List CAct := if env.has_stream ip then [CAct.stopStream ip] else []
  if env.has_stream ip && env.stop_fails ip then s1
  else
    let s2 := s1 ++ (if armed then [CAct.land ip] else [])
    if armed && env.land_fails ip then s2
    else
      let s3 := s2 ++ [CAct.streamoff ip]
      if env.streamoff_fails ip then s3
      else s3 ++ [CAct.endConn ip]

/-- Method `MultiTelloFrontEnd.cleanup` (source 227-240): best-effort
cleanup of every device in registration order; each device's failures are
caught by its own except, so the loop always reaches the next device. -/
def cleanup (env : CleanupEnv) (st : FleetState) : List CAct :=
  (st.tellos.map (fun ip => cleanupDevice env (st.send_rc_control ip) ip)).flatten

/-- Cleanup fault model in which the first drone's `land()` call raises and
everything else succeeds. -/
def c4env : CleanupEnv :=
  { has_stream := fun _ => true
    stop_fails := fun _ => false
    land_fails := fun ip => ip == "192.168.10.1"
    streamoff_fails := fun _ => false }

/-- Fleet state at shutdown in which only the first drone is armed. -/
def c4st : FleetState :=
  { tellos := ["192.168.10.1", "192.168.3.21"]
    velocities := fun _ =>
      { for_back_velocity := 0, left_right_velocity := 0
        up_down_velocity := 0, yaw_velocity := 0 }
    send_rc_control := fun ip => ip == "192.168.10.1"
    selected_drone := "192.168.10.1" }

/-- When every device command succeeds, no event handler raises. -/
theorem stepEvent_noFail_err (ls : LoopState) (ev : Ev) :
    (stepEvent noFailEnv ls ev).2.2 = none := by
  cases ev with
  | tick => simp [stepEvent, update, noFailEnv]; split <;> simp
  | quit => rfl
  | keyDown k => cases k <;> rfl
  | keyUp k => cases k <;> simp [stepEvent, keyup, noFailEnv]

/-- When every device command succeeds, a whole event batch is processed
without an uncaught exception. -/
theorem processEvents_noFail_ok (evs : List Ev) : ∀ ls : LoopState,
    ranOk (processEvents noFailEnv ls evs) = true := by
  induction evs with
  | nil => intro ls; rfl
  | cons ev rest ih =>
      intro ls
      have herr := stepEvent_noFail_err ls ev
      rcases hse : stepEvent noFailEnv ls ev with ⟨ls', cs, err⟩
      rw [hse] at herr
      simp only at herr
      subst herr
      have hrec := ih ls'
      rcases hrec2 : processEvents noFailEnv ls' rest with m | pr
      · rw [hrec2] at hrec; simp [ranOk] at hrec
      · simp [processEvents, hse, hrec2, ranOk]

/-- No event handler changes the set of registered drones. -/
theorem stepEvent_tellos (env : Env) (ls : LoopState) (ev : Ev) :
    (stepEvent env ls ev).1.fs.tellos = ls.fs.tellos := by
  cases ev with
  | tick => rfl
  | quit => rfl
  | keyDown k => cases k <;> simp [stepEvent, keydown, updVel, selectDrone] <;> split <;> rfl
  | keyUp k => cases k <;> simp [stepEvent, keyup, updVel] <;> split <;> rfl

/-- Every event handler keeps the selected drone a member of the fleet. -/
theorem stepEvent_selected_mem (env : Env) (ls : LoopState) (ev : Ev)
    (h : ls.fs.selected_drone ∈ ls.fs.tellos) :
    (stepEvent env ls ev).1.fs.selected_drone ∈ (stepEvent env ls ev).1.fs.tellos := by
  cases ev with
  | tick => exact h
  | quit => exact h
  | keyDown k =>
      cases k <;> simp [stepEvent, keydown, updVel, selectDrone] <;>
        first
        | exact h
        | (split
           · exact List.get_mem _ _ _
           · exact h)
  | keyUp k =>
      cases k <;> simp [stepEvent, keyup, updVel] <;> first | exact h | (split <;> exact h)

/-- Processing a batch of events keeps the selected drone a fleet member. -/
theorem processEvents_selected_mem (env : Env) (evs : List Ev) :
    ∀ ls ls' : LoopState, ∀ tr : List DevCall,
    ls.fs.selected_drone ∈ ls.fs.tellos →
    processEvents env ls evs = Except.ok (ls', tr) →
    ls'.fs.selected_drone ∈ ls'.fs.tellos := by
  induction evs with
  | nil =>
      intro ls ls' tr h hp
      simp only [processEvents, Except.ok.injEq, Prod.mk.injEq] at hp
      rw [← hp.1]; exact h
  | cons ev rest ih =>
      intro ls ls' tr h hp
      rcases hse : stepEvent env ls ev with ⟨ls1, cs, err⟩
      have hmem1 : ls1.fs.selected_drone ∈ ls1.fs.tellos := by
        have hstep := stepEvent_selected_mem env ls ev h
        rw [hse] at hstep; exact hstep
      cases err with
      | none =>
          rcases hrec : processEvents env ls1 rest with m | pr
          · simp [processEvents, hse, hrec] at hp
          · rcases pr with ⟨lsf, csf⟩
            simp only [processEvents, hse, hrec, Except.ok.injEq, Prod.mk.injEq] at hp
            rw [← hp.1]
            exact ih ls1 lsf csf hmem1 hrec
      | some m => simp [processEvents, hse] at hp

/-- The loop's stop flag is set by an event handler exactly for a window
quit event or an escape key-down (source 253-257). -/
theorem stepEvent_stop_iff (env : Env) (ls : LoopState) (ev : Ev) :
    (stepEvent env ls ev).1.should_stop = true ↔
      (ls.should_stop = true ∨ ev = Ev.quit ∨ ev = Ev.keyDown Key.escape) := by
  cases ev with
  | tick => simp [stepEvent]
  | quit => simp [stepEvent]
  | keyDown k => cases k <;> simp [stepEvent, selectDrone, keydown] <;> split <;> simp
  | keyUp k => cases k <;> simp [stepEvent, keyup] <;> split <;> simp

/-- No event handler touches the velocity entry of a drone other than the
one selected at the moment of the event. -/
theorem stepEvent_velocities_ne (env : Env) (ls : LoopState) (ev : Ev) (d : String)
    (hd : d ≠ ls.fs.selected_drone) :
    (stepEvent env ls ev).1.fs.velocities d = ls.fs.velocities d := by
  cases ev with
  | tick => rfl
  | quit => rfl
  | keyDown k =>
      cases k <;> simp [stepEvent, keydown, updVel, selectDrone, hd] <;> split <;> rfl
  | keyUp k =>
      cases k <;> simp [stepEvent, keyup, updVel, hd] <;> split <;> rfl

/-- Claim C1, counterexample: the claim says no exception raised by the
takeoff, land or send_rc_control calls in `keyup`/`update` ever propagates
out of the main run loop. In fact these calls are not wrapped in a try:
starting from the `main()` configuration, a single K_t key-up whose takeoff
call fails aborts event processing with an uncaught exception, terminating
the process without any quit or escape event. -/
theorem uncaught_takeoff_failure_crashes_run :
    processEvents takeoffFailEnv demoLoop [Ev.keyUp Key.t] = Except.error "takeoff failed" := rfl

/-- Claim C1, amended: a takeoff, land or send_rc_control failure is not
caught at the call site and propagates out of the main run loop,
terminating it (first conjunct: the concrete failing takeoff). When every
device command succeeds, processing any event batch from any state raises
no exception (second conjunct), and the loop's stop flag is set by an event
exactly when it was already set or the event is a window quit or an escape
key-down (third conjunct) - so in the absence of device-command failures
the loop exits only on an explicit quit or escape event. -/
theorem command_faults_propagate_and_loop_exits_only_on_quit :
    processEvents takeoffFailEnv demoLoop [Ev.keyUp Key.t] = Except.error "takeoff failed"
    ∧ (∀ ls : LoopState, ∀ evs : List Ev, ranOk (processEvents noFailEnv ls evs) = true)
    ∧ (∀ env : Env, ∀ ls : LoopState, ∀ ev : Ev,
        (stepEvent env ls ev).1.should_stop = true ↔
          (ls.should_stop = true ∨ ev = Ev.quit ∨ ev = Ev.keyDown Key.escape)) :=
  ⟨rfl, fun ls evs => processEvents_noFail_ok evs ls, stepEvent_stop_iff⟩

/-- Claim C2, counterexample: the claim says a device's velocity axis is
nonzero only while that device is selected, and that deselecting it zeroes
the axis. In fact, from `main()`'s configuration, pressing the UP arrow
(forward axis of drone 1 becomes 60) and then the select-drone-2 key
reaches a state in which drone 1 is no longer selected yet its forward
axis is still 60. -/
theorem deselected_drone_keeps_nonzero_velocity :
    c2probe = some (60, "192.168.3.21") ∧
    ("192.168.10.1" : String) ≠ "192.168.3.21" ∧
    "192.168.10.1" ∈ demoLoop.fs.tellos :=
  ⟨rfl, by decide, by decide⟩

/-- Claim C2, amended: an event modifies only the velocity axes of the
device that is selected at the moment of the event - every event leaves the
velocities of every non-selected device unchanged, and a selection change
leaves all velocities unchanged. Consequently the key-up reset is keyed by
key identity on the current selection, not by device, and a device
deselected while an axis key is held retains its nonzero axis value. -/
theorem events_touch_only_selected_velocities (env : Env) (ls : LoopState) (ev : Ev)
    (d : String) (hd : d ≠ ls.fs.selected_drone) :
    (stepEvent env ls ev).1.fs.velocities d = ls.fs.velocities d ∧
    (∀ n : Nat, (selectDrone n ls.fs).velocities = ls.fs.velocities) := by
  constructor
  · cases ev with
    | tick => rfl
    | quit => rfl
    | keyDown k =>
        cases k <;> simp [stepEvent, keydown, updVel, selectDrone, hd] <;> split <;> rfl
    | keyUp k =>
        cases k <;> simp [stepEvent, keyup, updVel, hd] <;> split <;> rfl
  · intro n; unfold selectDrone; split <;> rfl

/-- Witness for the amended claim C2, at the `main()` configuration with the
non-selected second drone and an UP key release. -/
theorem events_touch_only_selected_velocities_witness :
    ("192.168.3.21" : String) ≠ demoLoop.fs.selected_drone ∧
    (stepEvent noFailEnv demoLoop (Ev.keyUp Key.up)).1.fs.velocities "192.168.3.21"
      = demoLoop.fs.velocities "192.168.3.21" :=
  ⟨by decide,
   (events_touch_only_selected_velocities noFailEnv demoLoop (Ev.keyUp Key.up)
      "192.168.3.21" (by decide)).1⟩

/-- Claim C5: in the K_t branch of `keyup`, the armed flag
(`send_rc_control`) of the selected drone is assigned true only after the
takeoff call returns; if the takeoff call raises, the assignment is never
reached, the flag is unchanged (so a previously unarmed drone stays
unarmed) and the exception propagates; on success the flag becomes true. -/
theorem armed_only_after_successful_takeoff (env : Env) (st : FleetState) :
    (env.takeoff_fails st.selected_drone = true →
      (keyup env Key.t st).1.send_rc_control st.selected_drone
        = st.send_rc_control st.selected_drone ∧
      (keyup env Key.t st).2.2 = some "takeoff failed") ∧
    (env.takeoff_fails st.selected_drone = false →
      (keyup env Key.t st).1.send_rc_control st.selected_drone = true ∧
      (keyup env Key.t st).2.2 = none) := by
  constructor <;> intro h <;> simp [keyup, h]

/-- Witness for claim C5: a failing takeoff from the initial (unarmed)
`main()` state leaves the selected drone unarmed. -/
theorem armed_only_after_successful_takeoff_witness :
    takeoffFailEnv.takeoff_fails demoLoop.fs.selected_drone = true ∧
    (keyup takeoffFailEnv Key.t demoLoop.fs).1.send_rc_control demoLoop.fs.selected_drone
      = false := by
  refine ⟨rfl, ?_⟩
  have h := (armed_only_after_successful_takeoff takeoffFailEnv demoLoop.fs).1 rfl
  rw [h.1]
  rfl

/-- Claim C6: on a control tick, `update` issues exactly one
send_rc_control command, carrying the selected drone's four-axis velocity,
when the selected drone's armed flag is true, and issues nothing when it is
false; every command it ever issues is addressed to the selected drone, so
unarmed and non-selected drones are never sent commands by the tick. (The
hypothesis that the selected drone is registered holds in every reachable
state, by the claim C8 theorem.) -/
theorem update_sends_iff_armed_to_selected (env : Env) (st : FleetState)
    (hmem : st.selected_drone ∈ st.tellos) :
    (st.send_rc_control st.selected_drone = true →
       (update env st).1 = [DevCall.send_rc_control st.selected_drone
          (st.velocities st.selected_drone).left_right_velocity
          (st.velocities st.selected_drone).for_back_velocity
          (st.velocities st.selected_drone).up_down_velocity
          (st.velocities st.selected_drone).yaw_velocity]) ∧
    (st.send_rc_control st.selected_drone = false → (update env st).1 = []) ∧
    (∀ c ∈ (update env st).1, c.ip = st.selected_drone) := by
  refine ⟨?_, ?_, ?_⟩
  · intro h; simp [update, hmem, h]
  · intro h; simp [update, h]
  · intro c hc
    simp only [update] at hc
    split at hc
    · simp at hc; subst hc; rfl
    · simp at hc

/-- Witness for claim C6: after a successful takeoff of the first drone of
the `main()` configuration, the tick sends exactly its (zero) velocity
command to it. -/
theorem update_sends_iff_armed_to_selected_witness :
    (update noFailEnv armedDemo).1
      = [DevCall.send_rc_control "192.168.10.1" 0 0 0 0] :=
  (update_sends_iff_armed_to_selected noFailEnv armedDemo (by decide)).1 (by decide)

/-- Claim C7: for the selected drone, each directional key-down sets its
axis to exactly plus or minus S per the mapping (UP/DOWN to forward/back,
LEFT/RIGHT to left/right, w/s to up/down, a/d to yaw, S = 60), each
directional key-up zeroes the axis shared by its key pair, and key-down
followed by key-up of either member of the pair always leaves the axis at
exactly 0. -/
theorem axis_key_mapping_and_reset (env : Env) (st : FleetState) :
    (((keydown Key.up st).velocities st.selected_drone).for_back_velocity = S) ∧
    (((keydown Key.down st).velocities st.selected_drone).for_back_velocity = -S) ∧
    (((keydown Key.left st).velocities st.selected_drone).left_right_velocity = -S) ∧
    (((keydown Key.right st).velocities st.selected_drone).left_right_velocity = S) ∧
    (((keydown Key.w st).velocities st.selected_drone).up_down_velocity = S) ∧
    (((keydown Key.s st).velocities st.selected_drone).up_down_velocity = -S) ∧
    (((keydown Key.a st).velocities st.selected_drone).yaw_velocity = -S) ∧
    (((keydown Key.d st).velocities st.selected_drone).yaw_velocity = S) ∧
    (((keyup env Key.up st).1.velocities st.selected_drone).for_back_velocity = 0) ∧
    (((keyup env Key.down st).1.velocities st.selected_drone).for_back_velocity = 0) ∧
    (((keyup env Key.left st).1.velocities st.selected_drone).left_right_velocity = 0) ∧
    (((keyup env Key.right st).1.velocities st.selected_drone).left_right_velocity = 0) ∧
    (((keyup env Key.w st).1.velocities st.selected_drone).up_down_velocity = 0) ∧
    (((keyup env Key.s st).1.velocities st.selected_drone).up_down_velocity = 0) ∧
    (((keyup env Key.a st).1.velocities st.selected_drone).yaw_velocity = 0) ∧
    (((keyup env Key.d st).1.velocities st.selected_drone).yaw_velocity = 0) ∧
    (((keyup env Key.up (keydown Key.up st)).1.velocities st.selected_drone).for_back_velocity = 0) ∧
    (((keyup env Key.down (keydown Key.up st)).1.velocities st.selected_drone).for_back_velocity = 0) ∧
    (((keyup env Key.up (keydown Key.down st)).1.velocities st.selected_drone).for_back_velocity = 0) ∧
    (((keyup env Key.down (keydown Key.down st)).1.velocities st.selected_drone).for_back_velocity = 0) ∧
    (((keyup env Key.left (keydown Key.left st)).1.velocities st.selected_drone).left_right_velocity = 0) ∧
    (((keyup env Key.right (keydown Key.left st)).1.velocities st.selected_drone).left_right_velocity = 0) ∧
    (((keyup env Key.left (keydown Key.right st)).1.velocities st.selected_drone).left_right_velocity = 0) ∧
    (((keyup env Key.right (keydown Key.right st)).1.velocities st.selected_drone).left_right_velocity = 0) ∧
    (((keyup env Key.w (keydown Key.w st)).1.velocities st.selected_drone).up_down_velocity = 0) ∧
    (((keyup env Key.s (keydown Key.w st)).1.velocities st.selected_drone).up_down_velocity = 0) ∧
    (((keyup env Key.w (keydown Key.s st)).1.velocities st.selected_drone).up_down_velocity = 0) ∧
    (((keyup env Key.s (keydown Key.s st)).1.velocities st.selected_drone).up_down_velocity = 0) ∧
    (((keyup env Key.a (keydown Key.a st)).1.velocities st.selected_drone).yaw_velocity = 0) ∧
    (((keyup env Key.d (keydown Key.a st)).1.velocities st.selected_drone).yaw_velocity = 0) ∧
    (((keyup env Key.a (keydown Key.d st)).1.velocities st.selected_drone).yaw_velocity = 0) ∧
    (((keyup env Key.d (keydown Key.d st)).1.velocities st.selected_drone).yaw_velocity = 0) := by
  simp [keydown, keyup, updVel]

/-- Claim C8: the selected-drone reference is initialized to the first
registered drone and is a fleet member there (first conjunct); a
select-drone-N event with N at or above the fleet size leaves the state
unchanged (second conjunct); with N below the fleet size it selects drone N,
again a fleet member (third conjunct); and processing any event batch from
any state whose selection is a fleet member ends with the selection still a
fleet member (fourth conjunct) - so the invariant holds in every reachable
state. -/
theorem selected_drone_always_fleet_member :
    (∀ c : String × Nat, ∀ cs : List (String × Nat),
       (initFleet (c :: cs)).selected_drone = c.1 ∧
       (initFleet (c :: cs)).selected_drone ∈ (initFleet (c :: cs)).tellos) ∧
    (∀ n : Nat, ∀ st : FleetState, st.tellos.length ≤ n → selectDrone n st = st) ∧
    (∀ n : Nat, ∀ st : FleetState, ∀ h' : n < st.tellos.length,
       (selectDrone n st).selected_drone = st.tellos.get ⟨n, h'⟩ ∧
       (selectDrone n st).selected_drone ∈ st.tellos) ∧
    (∀ env : Env, ∀ ls ls' : LoopState, ∀ evs : List Ev, ∀ tr : List DevCall,
       ls.fs.selected_drone ∈ ls.fs.tellos →
       processEvents env ls evs = Except.ok (ls', tr) →
       ls'.fs.selected_drone ∈ ls'.fs.tellos) := by
  refine ⟨?_, ?_, ?_, ?_⟩
  · intro c cs
    constructor
    · rfl
    · simp [initFleet]
  · intro n st h'
    unfold selectDrone
    rw [dif_neg (Nat.not_lt.mpr h')]
  · intro n st h'
    constructor
    · unfold selectDrone; rw [dif_pos h']
    · unfold selectDrone; rw [dif_pos h']; exact List.get_mem _ _ _
  · intro env ls ls' evs tr hmem hrun
    exact processEvents_selected_mem env evs ls ls' tr hmem hrun

/-- Witness for claim C8, at the `main()` configuration: the initial
selection, an out-of-range select key, an in-range select key, and a
processed batch containing a select-drone-2 key. -/
theorem selected_drone_always_fleet_member_witness :
    (initFleet demoConfigs).selected_drone = "192.168.10.1" ∧
    selectDrone 5 demoLoop.fs = demoLoop.fs ∧
    (selectDrone 1 demoLoop.fs).selected_drone ∈ demoLoop.fs.tellos ∧
    (stepEvent noFailEnv demoLoop (Ev.keyDown Key.k2)).1.fs.selected_drone ∈
      (stepEvent noFailEnv demoLoop (Ev.keyDown Key.k2)).1.fs.tellos :=
  ⟨(selected_drone_always_fleet_member.1 ("192.168.10.1", 11111)
      [("192.168.3.21", 11118)]).1,
   selected_drone_always_fleet_member.2.1 5 demoLoop.fs (by decide),
   (selected_drone_always_fleet_member.2.2.1 1 demoLoop.fs (by decide)).2,
   selected_drone_always_fleet_member.2.2.2 noFailEnv demoLoop
     ((stepEvent noFailEnv demoLoop (Ev.keyDown Key.k2)).1) [Ev.keyDown Key.k2] []
     (by decide) rfl⟩

/-- Claim C4, counterexample: the claim says each of the four cleanup steps
is individually fault-isolated, so every device reaches every step. In
fact one try covers all four steps of a device: with the first drone armed
and its land call failing, its streamoff and end calls are never attempted,
while the second drone still goes through all its steps. -/
theorem land_failure_skips_rest_of_device_cleanup :
    cleanup c4env c4st =
      [CAct.stopStream "192.168.10.1", CAct.land "192.168.10.1",
       CAct.stopStream "192.168.3.21", CAct.streamoff "192.168.3.21",
       CAct.endConn "192.168.3.21"] ∧
    CAct.endConn "192.168.10.1" ∉ cleanup c4env c4st ∧
    CAct.streamoff "192.168.10.1" ∉ cleanup c4env c4st :=
  ⟨rfl, by decide, by decide⟩

/-- Claim C4, amended: each device's whole cleanup sequence runs inside one
per-device fault barrier - a failing step is caught and logged but skips
that device's remaining steps; cleanup always proceeds to the next device,
so every call attempted for a device appears in the overall cleanup trace
regardless of other devices' failures (first conjunct), and a device none
of whose own steps fail reaches every step including closing the
connection (second conjunct). -/
theorem cleanup_per_device_fault_isolation (env : CleanupEnv) (st : FleetState)
    (ip : String) (hip : ip ∈ st.tellos) :
    (∀ a ∈ cleanupDevice env (st.send_rc_control ip) ip, a ∈ cleanup env st) ∧
    (env.stop_fails ip = false → env.land_fails ip = false →
     env.streamoff_fails ip = false →
       CAct.endConn ip ∈ cleanupDevice env (st.send_rc_control ip) ip) := by
  constructor
  · intro a ha
    unfold cleanup
    exact List.mem_flatten.mpr ⟨_, List.mem_map.mpr ⟨ip, hip, rfl⟩, ha⟩
  · intro h1 h2 h3
    unfold cleanupDevice
    simp [h1, h2, h3]

/-- Witness for the amended claim C4: in the run where the first drone's
land call fails, the second drone's connection is still closed. -/
theorem cleanup_per_device_fault_isolation_witness :
    CAct.endConn "192.168.3.21" ∈ cleanup c4env c4st := by
  have h := cleanup_per_device_fault_isolation c4env c4st "192.168.3.21" (by decide)
  exact h.1 _ (h.2 rfl (by decide) rfl)

/-- Once a handler is stopped its background thread has exited permanently:
no further event changes anything and no further action is issued. -/
theorem runAgent_stopped (env : AgentEnv) (es : List StreamEvent) :
    ∀ h : FrameHeap, ∀ vs : VideoStreamHandler, vs.stopped = true →
    runAgent env h vs es = (h, vs, []) := by
  induction es with
  | nil => intro h vs hs; rfl
  | cons e es ih =>
      intro h vs hs
      have hstep : agentStep env h vs e = (h, vs, []) := by
        simp [agentStep, hs]
      simp only [runAgent, hstep]
      rw [ih h vs hs]
      simp

/-- One thread iteration never decreases the retry counter. -/
theorem agentStep_retry_mono (env : AgentEnv) (h : FrameHeap)
    (vs : VideoStreamHandler) (e : StreamEvent) :
    vs.retry_count ≤ (agentStep env h vs e).2.1.retry_count := by
  unfold agentStep
  split
  · exact Nat.le_refl _
  · cases e with
    | frameOk src => exact Nat.le_refl _
    | frameNone => exact Nat.le_refl _
    | fault =>
        simp only [faultStep]
        split <;> exact Nat.le_succ _

/-- The retry counter is monotone over any observation sequence. -/
theorem runAgent_retry_mono (env : AgentEnv) (es : List StreamEvent) :
    ∀ h : FrameHeap, ∀ vs : VideoStreamHandler,
    vs.retry_count ≤ (runAgent env h vs es).2.1.retry_count := by
  induction es with
  | nil => intro h vs; exact Nat.le_refl _
  | cons e es ih =>
      intro h vs
      calc vs.retry_count
          ≤ (agentStep env h vs e).2.1.retry_count := agentStep_retry_mono env h vs e
        _ ≤ (runAgent env (agentStep env h vs e).1 (agentStep env h vs e).2.1 es).2.1.retry_count :=
            ih _ _
        _ = (runAgent env h vs (e :: es)).2.1.retry_count := rfl

/-- A running handler with the default limit of 3 ends an observation
sequence stopped exactly when its starting count plus the faults observed
reaches 4 - successes never reset the count. -/
theorem runAgent_stopped_iff (env : AgentEnv) (es : List StreamEvent) :
    ∀ h : FrameHeap, ∀ vs : VideoStreamHandler,
    vs.max_retries = 3 → vs.stopped = false → vs.retry_count ≤ 3 →
    ((runAgent env h vs es).2.1.stopped = true ↔ 4 ≤ vs.retry_count + countFaults es) := by
  induction es with
  | nil =>
      intro h vs hm hs hr
      simp only [runAgent, countFaults, hs]
      constructor
      · intro hc; cases hc
      · intro hc; omega
  | cons e es ih =>
      intro h vs hm hs hr
      cases e with
      | frameOk src =>
          have hstep : agentStep env h vs (StreamEvent.frameOk src)
              = ((h.alloc (h.read src)).1,
                 { vs with frame := some (h.alloc (h.read src)).2 }, []) := by
            simp [agentStep, hs]
          have hrw : (runAgent env h vs (StreamEvent.frameOk src :: es)).2.1
              = (runAgent env (agentStep env h vs (StreamEvent.frameOk src)).1
                  (agentStep env h vs (StreamEvent.frameOk src)).2.1 es).2.1 := rfl
          rw [hrw, hstep]
          simpa [countFaults] using
            ih (h.alloc (h.read src)).1
              { vs with frame := some (h.alloc (h.read src)).2 } hm hs hr
      | frameNone =>
          have hstep : agentStep env h vs StreamEvent.frameNone = (h, vs, []) := by
            simp [agentStep, hs]
          have hrw : (runAgent env h vs (StreamEvent.frameNone :: es)).2.1
              = (runAgent env (agentStep env h vs StreamEvent.frameNone).1
                  (agentStep env h vs StreamEvent.frameNone).2.1 es).2.1 := rfl
          rw [hrw, hstep]
          simpa [countFaults] using ih h vs hm hs hr
      | fault =>
          have hstep : agentStep env h vs StreamEvent.fault
              = (h, (faultStep env vs).1, (faultStep env vs).2) := by
            simp [agentStep, hs]
          have hrw : (runAgent env h vs (StreamEvent.fault :: es)).2.1
              = (runAgent env (agentStep env h vs StreamEvent.fault).1
                  (agentStep env h vs StreamEvent.fault).2.1 es).2.1 := rfl
          rw [hrw, hstep]
          by_cases h3 : vs.retry_count = 3
          · have hcond : vs.retry_count + 1 > vs.max_retries := by omega
            have hfs : (faultStep env vs).1
                = { vs with retry_count := vs.retry_count + 1, stopped := true } := by
              unfold faultStep
              rw [if_pos hcond]
            rw [hfs]
            rw [runAgent_stopped env es h
                { vs with retry_count := vs.retry_count + 1, stopped := true } rfl]
            simp [countFaults, h3]
            omega
          · have hlt : vs.retry_count + 1 ≤ 3 := by omega
            have hcond : ¬ vs.retry_count + 1 > vs.max_retries := by omega
            have hfs : (faultStep env vs).1
                = { vs with retry_count := vs.retry_count + 1 } := by
              unfold faultStep
              rw [if_neg hcond]
            rw [hfs]
            have hih := ih h { vs with retry_count := vs.retry_count + 1 } hm hs hlt
            rw [hih]
            simp [countFaults]
            omega

/-- Claim C3: while the retry counter has not exceeded the limit, a channel
fault increments it by exactly 1 (first conjunct); if the incremented count
is still within the limit, the fault is followed by the backoff sleep and
exactly one reconnect attempt, streamoff then streamon, with the handler
left running (second conjunct); on the fault that pushes the count past the
limit - with the default limit 3, the 4th fault - the handler is marked
stopped, performs no backoff or reconnect, and its thread exits
permanently, ignoring all further events (third conjunct). -/
theorem retry_policy_on_channel_fault (env : AgentEnv) (vs : VideoStreamHandler)
    (hso : env.streamoff_fails = false)
    (hle : vs.retry_count ≤ vs.max_retries) :
    ((faultStep env vs).1.retry_count = vs.retry_count + 1) ∧
    (vs.retry_count < vs.max_retries →
       (faultStep env vs).2 = [Action.backoff, Action.streamoff, Action.streamon] ∧
       (faultStep env vs).1.stopped = vs.stopped) ∧
    (vs.retry_count = vs.max_retries →
       (faultStep env vs).1.stopped = true ∧ (faultStep env vs).2 = [] ∧
       (∀ h : FrameHeap, ∀ es : List StreamEvent,
          runAgent env h (faultStep env vs).1 es = (h, (faultStep env vs).1, []))) := by
  refine ⟨?_, ?_, ?_⟩
  · by_cases hc : vs.retry_count + 1 > vs.max_retries
    · unfold faultStep; rw [if_pos hc]
    · unfold faultStep; rw [if_neg hc]
  · intro hlt
    have hcond : ¬ vs.retry_count + 1 > vs.max_retries := by omega
    unfold faultStep
    rw [if_neg hcond]
    exact ⟨by simp [hso], rfl⟩
  · intro heq
    have hcond : vs.retry_count + 1 > vs.max_retries := by omega
    have hfs1 : (faultStep env vs).1
        = { vs with retry_count := vs.retry_count + 1, stopped := true } := by
      unfold faultStep; rw [if_pos hcond]
    refine ⟨by rw [hfs1], ?_, ?_⟩
    · unfold faultStep; rw [if_pos hcond]
    · intro h es
      exact runAgent_stopped env es h _ (by rw [hfs1])

/-- Witness for claim C3: the freshly constructed handler's first fault
takes the counter to 1 with a full reconnect attempt; a handler already at
the limit of 3 is stopped by the next fault with no reconnect. -/
theorem retry_policy_on_channel_fault_witness :
    ((faultStep ⟨false⟩ initHandler).1.retry_count = 1) ∧
    ((faultStep ⟨false⟩ initHandler).2
       = [Action.backoff, Action.streamoff, Action.streamon]) ∧
    ((faultStep ⟨false⟩ { initHandler with retry_count := 3 }).1.stopped = true) ∧
    ((faultStep ⟨false⟩ { initHandler with retry_count := 3 }).2 = []) :=
  ⟨(retry_policy_on_channel_fault ⟨false⟩ initHandler rfl (by decide)).1,
   ((retry_policy_on_channel_fault ⟨false⟩ initHandler rfl (by decide)).2.1 (by decide)).1,
   ((retry_policy_on_channel_fault ⟨false⟩ { initHandler with retry_count := 3 }
       rfl (by decide)).2.2 rfl).1,
   ((retry_policy_on_channel_fault ⟨false⟩ { initHandler with retry_count := 3 }
       rfl (by decide)).2.2 rfl).2.1⟩

/-- Claim C10: the retry counter is monotonically non-decreasing over any
observation sequence (first conjunct) and a successful frame capture leaves
it exactly unchanged - it is never reset (second conjunct); hence for the
default handler the limit bounds total faults over the whole lifetime, not
consecutive ones: the handler ends a sequence stopped exactly when the
sequence contains at least 4 faults, regardless of how many successful
captures occur in between (third conjunct). -/
theorem retry_count_total_over_lifetime (env : AgentEnv) :
    (∀ h : FrameHeap, ∀ vs : VideoStreamHandler, ∀ es : List StreamEvent,
       vs.retry_count ≤ (runAgent env h vs es).2.1.retry_count) ∧
    (∀ h : FrameHeap, ∀ vs : VideoStreamHandler, ∀ src : Nat,
       (agentStep env h vs (StreamEvent.frameOk src)).2.1.retry_count = vs.retry_count) ∧
    (∀ h : FrameHeap, ∀ es : List StreamEvent,
       ((runAgent env h initHandler es).2.1.stopped = true ↔ 4 ≤ countFaults es)) := by
  refine ⟨?_, ?_, ?_⟩
  · intro h vs es; exact runAgent_retry_mono env es h vs
  · intro h vs src; unfold agentStep; split <;> rfl
  · intro h es
    have hiff := runAgent_stopped_iff env es h initHandler rfl rfl (by decide)
    simpa [initHandler] using hiff

/-- Reading the frame object allocated last returns its contents. -/
theorem read_alloc_self (h : FrameHeap) (d : Frame) :
    (h.alloc d).1.read h.store.length = d := by
  show (h.store ++ [d]).getD h.store.length [] = d
  rw [List.getD_append_right _ _ _ _ (Nat.le_refl _)]
  simp

/-- Allocating a frame object does not change existing objects. -/
theorem read_alloc_lt (h : FrameHeap) (d : Frame) (a : Nat) (ha : a < h.store.length) :
    (h.alloc d).1.read a = h.read a :=
  List.getD_append _ _ _ _ ha

/-- Mutating one frame object does not change a different one. -/
theorem read_writeAt_ne (h : FrameHeap) (a b : Nat) (d : Frame) (hne : b ≠ a) :
    (h.writeAt b d).read a = h.read a := by
  show (h.store.set b d).getD a [] = h.store.getD a []
  simp [List.getD_eq_getElem?_getD, List.getElem?_set_ne hne]

/-- Mutation preserves the heap size. -/
theorem writeAt_length (h : FrameHeap) (b : Nat) (d : Frame) :
    (h.writeAt b d).store.length = h.store.length := by
  simp [FrameHeap.writeAt]

/-- With a stored frame at address `a`, `get_frame` allocates a copy and
returns the fresh address. -/
theorem get_frame_some (h : FrameHeap) (vs : VideoStreamHandler) (a : Nat)
    (hf : vs.frame = some a) :
    vs.get_frame h = ((h.alloc (h.read a)).1, some h.store.length) := by
  simp [VideoStreamHandler.get_frame, hf, FrameHeap.alloc]

/-- Claim C9: `get_frame` returns nothing when no frame has ever been
stored (first conjunct); otherwise it returns a freshly allocated frame
object, distinct from the handler's stored one, holding equal contents, and
mutating the returned object changes neither the handler's stored frame nor
the contents returned by any subsequent `get_frame` call (second
conjunct). The bound on the stored address is heap well-formedness: the
slot always holds a previously allocated object. -/
theorem get_frame_defensive_copy :
    (∀ h : FrameHeap, ∀ vs : VideoStreamHandler,
       vs.frame = none → (vs.get_frame h).2 = none) ∧
    (∀ h : FrameHeap, ∀ vs : VideoStreamHandler, ∀ a : Nat,
       vs.frame = some a → a < h.store.length →
       (vs.get_frame h).2 = some h.store.length ∧
       h.store.length ≠ a ∧
       (vs.get_frame h).1.read h.store.length = h.read a ∧
       (∀ d : Frame,
          ((vs.get_frame h).1.writeAt h.store.length d).read a = h.read a ∧
          (vs.get_frame ((vs.get_frame h).1.writeAt h.store.length d)).2
            = some (h.store.length + 1) ∧
          (vs.get_frame ((vs.get_frame h).1.writeAt h.store.length d)).1.read
              (h.store.length + 1) = h.read a)) := by
  constructor
  · intro h vs hf
    simp [VideoStreamHandler.get_frame, hf]
  · intro h vs a hf ha
    have hne : h.store.length ≠ a := (Nat.ne_of_lt ha).symm
    rw [get_frame_some h vs a hf]
    refine ⟨rfl, hne, read_alloc_self h (h.read a), ?_⟩
    intro d
    have hra : (((h.alloc (h.read a)).1.writeAt h.store.length d)).read a = h.read a := by
      rw [read_writeAt_ne _ _ _ _ hne, read_alloc_lt _ _ _ ha]
    have hmlen : (((h.alloc (h.read a)).1.writeAt h.store.length d)).store.length
        = h.store.length + 1 := by
      rw [writeAt_length]
      simp [FrameHeap.alloc]
    refine ⟨hra, ?_, ?_⟩
    · rw [get_frame_some _ vs a hf, hmlen]
    · rw [get_frame_some _ vs a hf, ← hmlen, read_alloc_self, hra]

/-- Witness for claim C9: a fresh handler yields no frame; a handler whose
slot holds the single heap object yields the fresh address 1, and mutating
the copy leaves the stored frame's contents intact. -/
theorem get_frame_defensive_copy_witness :
    (initHandler.get_frame { store := [] }).2 = none ∧
    (({ initHandler with frame := some 0 } : VideoStreamHandler).get_frame
        { store := [[5, 6]] }).2 = some 1 ∧
    ((({ initHandler with frame := some 0 } : VideoStreamHandler).get_frame
        { store := [[5, 6]] }).1.writeAt 1 [9]).read 0 = [5, 6] :=
  ⟨get_frame_defensive_copy.1 { store := [] } initHandler rfl,
   (get_frame_defensive_copy.2 { store := [[5, 6]] }
      { initHandler with frame := some 0 } 0 rfl (by decide)).1,
   ((get_frame_defensive_copy.2 { store := [[5, 6]] }
      { initHandler with frame := some 0 } 0 rfl (by decide)).2.2.2 [9]).1⟩

end MultiTello
